import Mathlib

/-!
Verification of the instructor request form component
(`instructor-request-form.component.ts`).

The component is embedded shallowly: each Angular `FormControl` becomes a
record of its current value, validity and dirtiness; the component instance
becomes a state record; the `onSubmit` handler becomes a pure function of
the state together with the outcome of the single backend call, returning
the updated state, the list of outbound requests and the list of emitted
events.  JavaScript truthiness of the strings and of the optional captcha
token is made explicit.
-/

/-- State of one Angular `FormControl`: its current string value, whether
the framework validators accept it, and whether the user has modified it. -/
structure FormControlState where
  value : String
  valid : Bool
  dirty : Bool
deriving Repr, DecidableEq

/-- State of the `arf` form group, one entry per control declared in the
component (`name`, `institution`, `country`, `email`, `comments`,
`recaptcha`). -/
structure ArfState where
  name : FormControlState
  institution : FormControlState
  country : FormControlState
  email : FormControlState
  comments : FormControlState
  recaptcha : FormControlState
deriving Repr, DecidableEq

/-- Angular group invalidity: the `FormGroup` carries no group-level
validator, so `arf.invalid` holds exactly when some child control is
invalid. -/
def ArfState.invalid (a : ArfState) : Bool :=
  !a.name.valid || !a.institution.valid || !a.country.valid
    || !a.email.valid || !a.comments.valid || !a.recaptcha.valid

/-- Whether any control of the group is dirty, as computed by
`Object.values(this.arf.controls).some(control => control.dirty)`. -/
def ArfState.someDirty (a : ArfState) : Bool :=
  a.name.dirty || a.institution.dirty || a.country.dirty
    || a.email.dirty || a.comments.dirty || a.recaptcha.dirty

/-- Mutable state of `InstructorRequestFormComponent`. `captchaResponse`
is `string | undefined` in the source and is embedded as `Option String`. -/
structure ComponentState where
  captchaSiteKey : String
  isCaptchaSuccessful : Bool
  captchaResponse : Option String
  arf : ArfState
  hasSubmitAttempt : Bool
  isLoading : Bool
  serverErrorMessage : String
deriving Repr, DecidableEq

/-- The payload of `accountService.createAccountRequest`.  The optional
`instructorComments` key is present exactly when the field is `some`. -/
structure AccountCreateRequest where
  instructorEmail : String
  instructorName : String
  instructorInstitution : String
  captchaResponse : String
  instructorComments : Option String
deriving Repr, DecidableEq

/-- The payload of `requestSubmissionEvent`
(`InstructorRequestFormModel`). -/
structure InstructorRequestFormModel where
  name : String
  institution : String
  country : String
  email : String
  comments : String
deriving Repr, DecidableEq

/-- Outcome of the single backend call: the `next` branch or the `error`
branch carrying `resp.error.message`. -/
inductive BackendOutcome where
  | success
  | error (message : String)
deriving Repr, DecidableEq

/-- Result of running `onSubmit`: the final component state, the outbound
requests issued, and the events emitted. -/
structure SubmitResult where
  state : ComponentState
  requests : List AccountCreateRequest
  emitted : List InstructorRequestFormModel
deriving Repr, DecidableEq

/-- JavaScript truthiness of a string: truthy exactly when non-empty. -/
def jsTruthy (s : String) : Bool :=
  s != ""

/-- JavaScript falsiness of the optional captcha token
(`!this.captchaResponse`): `undefined` and the empty string are falsy. -/
def jsFalsyOpt : Option String → Bool
  | none => true
  | some t => t == ""

/-- The guard of the early return in `onSubmit`:
`this.arf.invalid || (this.captchaSiteKey && !this.captchaResponse)`. -/
def submissionBlocked (s : ComponentState) : Bool :=
  s.arf.invalid || (jsTruthy s.captchaSiteKey && jsFalsyOpt s.captchaResponse)

/-- The three assignments at the top of `onSubmit`:
`hasSubmitAttempt = true; isLoading = true; serverErrorMessage = ''`. -/
def submitInit (s : ComponentState) : ComponentState :=
  { s with hasSubmitAttempt := true, isLoading := true, serverErrorMessage := "" }

/-- The `canSubmit` getter: `!this.isLoading`. -/
def canSubmit (s : ComponentState) : Bool :=
  !s.isLoading

/-- `getFieldValidationClasses`: empty before the first submit attempt,
afterwards `is-invalid` for an invalid control, `is-valid` for a valid
control with a non-empty value, empty otherwise. -/
def getFieldValidationClasses (s : ComponentState) (field : FormControlState) : String :=
  if s.hasSubmitAttempt then
    if !field.valid then "is-invalid"
    else if field.value != "" then "is-valid"
    else ""
  else ""

/-- `handleCaptchaSuccess`: records the token and marks the captcha as
solved. -/
def handleCaptchaSuccess (s : ComponentState) (captchaResponse : String) : ComponentState :=
  { s with isCaptchaSuccessful := true, captchaResponse := some captchaResponse }

/-- `onSubmit`, embedded as a pure function of the component state and the
backend outcome.  The early return keeps both lists empty; otherwise the
request is built from the trimmed values, `finalize` clears `isLoading` on
both branches, the `next` branch emits the event and the `error` branch
stores the message. -/
def onSubmit (s : ComponentState) (outcome : BackendOutcome) : SubmitResult :=
  let s1 := submitInit s
  if submissionBlocked s1 then
    { state := { s1 with isLoading := false }, requests := [], emitted := [] }
  else
    let name := s1.arf.name.value.trim
    let email := s1.arf.email.value.trim
    let comments := s1.arf.comments.value.trim
    let country := s1.arf.country.value.trim
    let institution := s1.arf.institution.value.trim
    let combinedInstitution := institution ++ ", " ++ country
    let requestData : AccountCreateRequest :=
      { instructorEmail := email
        instructorName := name
        instructorInstitution := combinedInstitution
        captchaResponse := if jsTruthy s1.captchaSiteKey then s1.captchaResponse.getD "" else ""
        instructorComments := if comments != "" then some comments else none }
    match outcome with
    | .success =>
      { state := { s1 with isLoading := false }
        requests := [requestData]
        emitted := [{ name := name, institution := institution, country := country,
                      email := email, comments := comments }] }
    | .error msg =>
      { state := { s1 with isLoading := false, serverErrorMessage := msg }
        requests := [requestData]
        emitted := [] }

/-- Effect of `onCancel`: either a navigation with its route commands, or
no navigation. -/
inductive CancelEffect where
  | navigate (commands : List String)
  | noNavigation
deriving Repr, DecidableEq

/-- `onCancel`, embedded with the answer the user would give to the
`confirm` prompt passed in as `confirmed`.  When no control is dirty the
prompt is never shown and the answer is irrelevant. -/
def onCancel (s : ComponentState) (confirmed : Bool) : CancelEffect :=
  if s.arf.someDirty then
    if confirmed then .navigate ["/web/front/home"] else .noNavigation
  else
    .navigate ["/web/front/home"]

/-! Helper lemmas and concrete states used by the witnesses. -/

theorem submissionBlocked_submitInit (s : ComponentState) :
    submissionBlocked (submitInit s) = submissionBlocked s := rfl

theorem submitInit_arf (s : ComponentState) : (submitInit s).arf = s.arf := rfl

theorem submitInit_captchaSiteKey (s : ComponentState) :
    (submitInit s).captchaSiteKey = s.captchaSiteKey := rfl

theorem submitInit_captchaResponse (s : ComponentState) :
    (submitInit s).captchaResponse = s.captchaResponse := rfl

/-- The request issued by an unblocked `onSubmit`, written out field by
field. -/
theorem onSubmit_requests_eq (s : ComponentState) (o : BackendOutcome)
    (h : submissionBlocked s = false) :
    (onSubmit s o).requests =
      [{ instructorEmail := s.arf.email.value.trim
         instructorName := s.arf.name.value.trim
         instructorInstitution := s.arf.institution.value.trim ++ ", " ++ s.arf.country.value.trim
         captchaResponse := if jsTruthy s.captchaSiteKey then s.captchaResponse.getD "" else ""
         instructorComments :=
           if s.arf.comments.value.trim != "" then some (s.arf.comments.value.trim)
           else none }] := by
  have hb : submissionBlocked (submitInit s) = false := h
  cases o <;> simp [onSubmit, hb, submitInit_arf, submitInit_captchaSiteKey,
    submitInit_captchaResponse]

/-- A form control with empty value, accepted by the validators,
untouched by the user. -/
def cleanControl : FormControlState := { value := "", valid := true, dirty := false }

/-- A fully filled-in, valid form group. -/
def filledArf : ArfState :=
  { name := { value := " Ada Lovelace ", valid := true, dirty := true }
    institution := { value := "NUS", valid := true, dirty := true }
    country := { value := " Singapore ", valid := true, dirty := true }
    email := { value := "ada@example.com", valid := true, dirty := true }
    comments := { value := "", valid := true, dirty := false }
    recaptcha := cleanControl }

/-- A component state ready for a valid submission (no captcha site key
configured). -/
def validState : ComponentState :=
  { captchaSiteKey := "", isCaptchaSuccessful := false, captchaResponse := none,
    arf := filledArf, hasSubmitAttempt := false, isLoading := false, serverErrorMessage := "" }

/-- The filled form group with the name control made invalid. -/
def invalidNameArf : ArfState :=
  { filledArf with name := { value := "", valid := false, dirty := false } }

/-- A component state whose form group is invalid. -/
def invalidState : ComponentState := { validState with arf := invalidNameArf }

/-- A component state whose controls are all pristine. -/
def pristineArf : ArfState :=
  { name := cleanControl, institution := cleanControl, country := cleanControl,
    email := cleanControl, comments := cleanControl, recaptcha := cleanControl }

/-- A component state in which no control is dirty. -/
def pristineState : ComponentState := { validState with arf := pristineArf }

/-- C1: when the form group is invalid, or a captcha site key is configured
and no captcha token has been received, `onSubmit` issues no request, emits
no event, and leaves `isLoading` false. -/
theorem c1_blocked_submission (s : ComponentState) (o : BackendOutcome)
    (h : s.arf.invalid = true ∨ (s.captchaSiteKey ≠ "" ∧ s.captchaResponse = none)) :
    (onSubmit s o).requests = [] ∧ (onSubmit s o).emitted = [] ∧
      (onSubmit s o).state.isLoading = false := by
  have hb : submissionBlocked s = true := by
    rcases h with h | ⟨h1, h2⟩
    · simp [submissionBlocked, h]
    · simp [submissionBlocked, jsTruthy, jsFalsyOpt, h1, h2]
  simp [onSubmit, submissionBlocked_submitInit, hb]

theorem c1_blocked_submission_witness :
    (onSubmit invalidState BackendOutcome.success).requests = [] ∧
      (onSubmit invalidState BackendOutcome.success).emitted = [] ∧
      (onSubmit invalidState BackendOutcome.success).state.isLoading = false :=
  c1_blocked_submission invalidState BackendOutcome.success (Or.inl (by decide))

/-- C2: on a valid submission the single outbound request's
`instructorInstitution` is the trimmed institution, then the literal
string `", "`, then the trimmed country. -/
theorem c2_combined_institution (s : ComponentState) (o : BackendOutcome)
    (h : submissionBlocked s = false) :
    ∃ r, (onSubmit s o).requests = [r] ∧
      r.instructorInstitution =
        s.arf.institution.value.trim ++ ", " ++ s.arf.country.value.trim :=
  ⟨_, onSubmit_requests_eq s o h, rfl⟩

theorem c2_combined_institution_witness :
    ∃ r, (onSubmit validState BackendOutcome.success).requests = [r] ∧
      r.instructorInstitution =
        validState.arf.institution.value.trim ++ ", " ++ validState.arf.country.value.trim :=
  c2_combined_institution validState BackendOutcome.success (by decide)

/-- C3: on a valid submission whose backend call succeeds, exactly one
`requestSubmissionEvent` is emitted, carrying the five trimmed form
values with institution and country kept separate. -/
theorem c3_success_event (s : ComponentState)
    (h : submissionBlocked s = false) :
    (onSubmit s BackendOutcome.success).emitted =
      [{ name := s.arf.name.value.trim
         institution := s.arf.institution.value.trim
         country := s.arf.country.value.trim
         email := s.arf.email.value.trim
         comments := s.arf.comments.value.trim }] := by
  have hb : submissionBlocked (submitInit s) = false := h
  simp [onSubmit, hb, submitInit_arf]

theorem c3_success_event_witness :
    (onSubmit validState BackendOutcome.success).emitted =
      [{ name := validState.arf.name.value.trim
         institution := validState.arf.institution.value.trim
         country := validState.arf.country.value.trim
         email := validState.arf.email.value.trim
         comments := validState.arf.comments.value.trim }] :=
  c3_success_event validState (by decide)

/-- C4: on a valid submission whose backend call fails,
`serverErrorMessage` becomes exactly the message of the error response and
no event is emitted. -/
theorem c4_error_message (s : ComponentState) (msg : String)
    (h : submissionBlocked s = false) :
    (onSubmit s (BackendOutcome.error msg)).state.serverErrorMessage = msg ∧
      (onSubmit s (BackendOutcome.error msg)).emitted = [] := by
  have hb : submissionBlocked (submitInit s) = false := h
  simp [onSubmit, hb]

theorem c4_error_message_witness :
    (onSubmit validState (BackendOutcome.error "quota exceeded")).state.serverErrorMessage
        = "quota exceeded" ∧
      (onSubmit validState (BackendOutcome.error "quota exceeded")).emitted = [] :=
  c4_error_message validState "quota exceeded" (by decide)

/-- C5: `onCancel` navigates to `/web/front/home` immediately when no
control is dirty; when some control is dirty it navigates there exactly
when the user confirms, and performs no navigation otherwise. -/
theorem c5_cancel_navigation (s : ComponentState) (c : Bool) :
    (s.arf.someDirty = false → onCancel s c = CancelEffect.navigate ["/web/front/home"]) ∧
    (s.arf.someDirty = true →
      ((onCancel s c = CancelEffect.navigate ["/web/front/home"]) ↔ c = true) ∧
      (c = false → onCancel s c = CancelEffect.noNavigation)) := by
  cases c <;> constructor <;> intro h <;> simp [onCancel, h]

theorem c5_cancel_navigation_witness :
    onCancel pristineState false = CancelEffect.navigate ["/web/front/home"] ∧
    onCancel validState true = CancelEffect.navigate ["/web/front/home"] ∧
    onCancel validState false = CancelEffect.noNavigation :=
  ⟨(c5_cancel_navigation pristineState false).1 (by decide),
   ((c5_cancel_navigation validState true).2 (by decide)).1.mpr rfl,
   ((c5_cancel_navigation validState false).2 (by decide)).2 rfl⟩

/-- A component state with a configured site key, a received token, and
non-empty comments. -/
def captchaState : ComponentState :=
  { validState with
    captchaSiteKey := "site-key-123", captchaResponse := some "token-xyz",
    isCaptchaSuccessful := true,
    arf := { filledArf with
             comments := { value := "  hello there  ", valid := true, dirty := true } } }

/-- The valid state after a first submit attempt. -/
def submittedState : ComponentState := { validState with hasSubmitAttempt := true }

/-- The valid state while a request is in flight. -/
def loadingState : ComponentState := { validState with isLoading := true }

theorem submitInit_hasSubmitAttempt (s : ComponentState) :
    (submitInit s).hasSubmitAttempt = true := rfl

theorem submitInit_serverErrorMessage (s : ComponentState) :
    (submitInit s).serverErrorMessage = "" := rfl

/-- C6 counterexample: a state whose form group is invalid while no
request is in flight, in which `canSubmit` is nevertheless true, because
`canSubmit` only reads `isLoading` and never consults validity. -/
theorem c6_counterexample_canSubmit :
    invalidState.arf.invalid = true ∧ canSubmit invalidState = true :=
  ⟨rfl, rfl⟩

/-- C6 amended: in every state in which validation fails or the captcha
token is missing, submission is blocked silently by the early return of
`onSubmit` (no outbound request and no error message is set), while
`canSubmit` equals the negation of `isLoading` and thus does not reflect
validity. -/
theorem c6_amended_silent_block (s : ComponentState) (o : BackendOutcome)
    (h : submissionBlocked s = true) :
    (onSubmit s o).requests = [] ∧
      (onSubmit s o).state.serverErrorMessage = "" ∧
      canSubmit s = !s.isLoading := by
  have hb : submissionBlocked (submitInit s) = true := h
  simp [onSubmit, hb, canSubmit, submitInit_serverErrorMessage]

theorem c6_amended_silent_block_witness :
    (onSubmit invalidState BackendOutcome.success).requests = [] ∧
      (onSubmit invalidState BackendOutcome.success).state.serverErrorMessage = "" ∧
      canSubmit invalidState = !invalidState.isLoading :=
  c6_amended_silent_block invalidState BackendOutcome.success (by decide)

/-- C7: on a valid submission the request carries `instructorComments`
exactly when the trimmed comments are non-empty, and `captchaResponse` is
the received token when a site key is configured and the empty string
otherwise. -/
theorem c7_request_optional_fields (s : ComponentState) (o : BackendOutcome)
    (h : submissionBlocked s = false) :
    ∃ r, (onSubmit s o).requests = [r] ∧
      (s.arf.comments.value.trim = "" → r.instructorComments = none) ∧
      (s.arf.comments.value.trim ≠ "" →
        r.instructorComments = some (s.arf.comments.value.trim)) ∧
      (s.captchaSiteKey = "" → r.captchaResponse = "") ∧
      (∀ t, s.captchaSiteKey ≠ "" → s.captchaResponse = some t → r.captchaResponse = t) := by
  refine ⟨_, onSubmit_requests_eq s o h, ?_, ?_, ?_, ?_⟩
  · intro hc
    simp [hc]
  · intro hc
    simp [hc]
  · intro hk
    simp [jsTruthy, hk]
  · intro t hk ht
    simp [jsTruthy, hk, ht]

theorem c7_request_optional_fields_witness :
    ∃ r, (onSubmit captchaState BackendOutcome.success).requests = [r] ∧
      (captchaState.arf.comments.value.trim = "" → r.instructorComments = none) ∧
      (captchaState.arf.comments.value.trim ≠ "" →
        r.instructorComments = some (captchaState.arf.comments.value.trim)) ∧
      (captchaState.captchaSiteKey = "" → r.captchaResponse = "") ∧
      (∀ t, captchaState.captchaSiteKey ≠ "" → captchaState.captchaResponse = some t →
        r.captchaResponse = t) :=
  c7_request_optional_fields captchaState BackendOutcome.success (by decide)

/-- C8: `isLoading` is raised before the call is issued, `canSubmit` is
false whenever `isLoading` holds, and `isLoading` is back to false once
`onSubmit` has run, on every branch. -/
theorem c8_loading_gate (s : ComponentState) (o : BackendOutcome) :
    (submitInit s).isLoading = true ∧
    (s.isLoading = true → canSubmit s = false) ∧
    (onSubmit s o).state.isLoading = false := by
  refine ⟨rfl, ?_, ?_⟩
  · intro h
    simp [canSubmit, h]
  · cases hb : submissionBlocked (submitInit s) <;> cases o <;> simp [onSubmit, hb]

theorem c8_loading_gate_witness :
    (submitInit loadingState).isLoading = true ∧
    canSubmit loadingState = false ∧
    (onSubmit loadingState BackendOutcome.success).state.isLoading = false :=
  ⟨(c8_loading_gate loadingState BackendOutcome.success).1,
   (c8_loading_gate loadingState BackendOutcome.success).2.1 rfl,
   (c8_loading_gate loadingState BackendOutcome.success).2.2⟩

/-- C9: `onSubmit` sets `hasSubmitAttempt` and clears `serverErrorMessage`
first of all, so its result never depends on a previously displayed server
error, and the final state always records the attempt. -/
theorem c9_reset_on_attempt (s : ComponentState) (o : BackendOutcome) (m : String) :
    (submitInit s).hasSubmitAttempt = true ∧
    (submitInit s).serverErrorMessage = "" ∧
    onSubmit { s with serverErrorMessage := m } o = onSubmit s o ∧
    (onSubmit s o).state.hasSubmitAttempt = true := by
  refine ⟨rfl, rfl, rfl, ?_⟩
  cases hb : submissionBlocked (submitInit s) <;> cases o <;>
    simp [onSubmit, hb, submitInit_hasSubmitAttempt]

/-- C10: `getFieldValidationClasses` is empty before a submit attempt;
afterwards it is `is-invalid` on an invalid control, `is-valid` on a valid
control with non-empty value, and empty on a valid control with empty
value. -/
theorem c10_validation_classes (s : ComponentState) (f : FormControlState) :
    (s.hasSubmitAttempt = false → getFieldValidationClasses s f = "") ∧
    (s.hasSubmitAttempt = true → f.valid = false →
      getFieldValidationClasses s f = "is-invalid") ∧
    (s.hasSubmitAttempt = true → f.valid = true → f.value ≠ "" →
      getFieldValidationClasses s f = "is-valid") ∧
    (s.hasSubmitAttempt = true → f.valid = true → f.value = "" →
      getFieldValidationClasses s f = "") := by
  refine ⟨?_, ?_, ?_, ?_⟩
  · intro h1
    simp [getFieldValidationClasses, h1]
  · intro h1 h2
    simp [getFieldValidationClasses, h1, h2]
  · intro h1 h2 h3
    simp [getFieldValidationClasses, h1, h2, h3]
  · intro h1 h2 h3
    simp [getFieldValidationClasses, h1, h2, h3]

theorem c10_validation_classes_witness :
    getFieldValidationClasses validState filledArf.name = "" ∧
    getFieldValidationClasses submittedState invalidNameArf.name = "is-invalid" ∧
    getFieldValidationClasses submittedState filledArf.name = "is-valid" ∧
    getFieldValidationClasses submittedState cleanControl = "" :=
  ⟨(c10_validation_classes validState filledArf.name).1 rfl,
   (c10_validation_classes submittedState invalidNameArf.name).2.1 rfl rfl,
   (c10_validation_classes submittedState filledArf.name).2.2.1 rfl rfl (by decide),
   (c10_validation_classes submittedState cleanControl).2.2.2 rfl rfl rfl⟩
